import Mathlib

/-!
Verification of the tile-resolution and caching pipeline of
`tile_server.py` (Optimal-Stargazing-Locator).

The Python source is shallowly embedded: pure helpers become Lean
functions, the two HTTP handlers become functions over an explicit
local-cache state plus an oracle for the remote object store, and the
cache-cleanup loop body becomes a function over a list of cached files.
Python integers are modelled by `Int`; the value `(2 ** z) - 1 - y`,
which in Python is an `int` for `z >= 0` and a `float` for `z < 0`,
is modelled exactly by a rational. Local filesystem paths are lists of
path segments relative to the cache root `CACHE_DIR`. Filesystem and
remote-store side effects are recorded in an event trace.
-/

namespace TileServer

/-- Tile image bytes, abstracted as a list of byte values. -/
abbrev Bytes := List Nat

/-- Local filesystem path relative to the cache root, as segments. -/
abbrev FPath := List String

/-- Local cache contents: an association list from path to file bytes.
Later entries are shadowed by earlier ones. -/
abbrev Cache := List (FPath × Bytes)

/-- Bytes stored at a path, if the file exists (`Path.exists` / read). -/
def cacheGet (c : Cache) (p : FPath) : Option Bytes :=
  (c.find? (fun e => decide (e.1 = p))).map Prod.snd

/-- Store bytes at a path (a completed file write). -/
def cacheSet (c : Cache) (p : FPath) (b : Bytes) : Cache :=
  (p, b) :: c

/-- Parent directory of a path (`Path.parent`). -/
def parentOf (p : FPath) : FPath := p.dropLast

/-- Bucket name, from the configuration section of the source. -/
def BUCKET : String := "optimal-stargazing-locator"

/-- Mapping for paths in the bucket (`LAYER_PATHS` in the source). -/
def LAYER_PATHS : List (String × String) :=
  [("SkyCover_Tiles", "data-layer-tiles/SkyCover_Tiles"),
   ("PrecipProb_Tiles", "data-layer-tiles/PrecipProb_Tiles"),
   ("Temp_Tiles", "data-layer-tiles/Temp_Tiles"),
   ("Stargazing_Tiles", "data-layer-tiles/Stargazing_Tiles"),
   ("LightPollution_Tiles", "light-pollution-data/zenith_ConUSA_colored_tiles")]

/-- Registry lookup: `LAYER_PATHS[layer]` when `layer in LAYER_PATHS`. -/
def layerPath (layer : String) : Option String :=
  (LAYER_PATHS.find? (fun e => decide (e.1 = layer))).map Prod.snd

/-- Remote key of the blank tile (`blank_tile_key` in the source). -/
def blank_tile_key : String := "data-layer-tiles/blank_tile_256x256.png"

/-- Local path of the cached blank tile, relative to `CACHE_DIR`. -/
def blank_tile_path : FPath := ["blank_tile.png"]

/-- Cache retention threshold in seconds (`CACHE_EXPIRY_SECONDS = 12 * 3600`). -/
def CACHE_EXPIRY_SECONDS : ℚ := 12 * 3600

/-- Fully-qualified s3fs path, `f"{BUCKET}/{key.lstrip('/')}"`. -/
def s3key (key : String) : String :=
  BUCKET ++ "/" ++ String.dropWhile key (fun ch => decide (ch = '/'))

/-- Row-convention flip `slippy_y_from_tms(z, y) = (2 ** z) - 1 - y`.
Python evaluates `2 ** z` to an `int` for `z >= 0` and to a `float`
for `z < 0`; both are captured exactly by the rational `(2 : ℚ) ^ z`
(the floats arising in the claims are exactly representable). -/
def slippy_y_from_tms (z : ℤ) (y : ℚ) : ℚ :=
  (2 : ℚ) ^ z - 1 - y

/-- Zero-pad a digit string on the left to width `k`. -/
def padZeros (s : String) (k : Nat) : String :=
  String.mk (List.replicate (k - s.length) '0') ++ s

/-- Rendering by Python `str()` of the float whose exact value is
`n / 2 ^ k` with `k ≥ 1` and `n` odd: sign, integer part, a dot, then
the `k` digits of the exact decimal expansion of the fractional part
(the fractional numerator times `5 ^ k`, zero-padded to `k` digits).
For the small dyadic values reached in this development the Python
double is exact and its shortest round-tripping decimal is this exact
expansion. -/
def floatStrDyadic (n : ℤ) (k : Nat) : String :=
  let sgn := if n < 0 then "-" else ""
  let m := n.natAbs
  let ip := m / 2 ^ k
  let fr := m % 2 ^ k
  sgn ++ toString ip ++ "." ++ padZeros (toString (fr * 5 ^ k)) k

/-- The string interpolated for `slippy_y` in the f-strings of the
handlers: `str` of an `int` when `z ≥ 0`; for `z < 0` Python computes
the float `(2 ** z) - 1 - y`, whose exact value is
`(1 - (1 + y) * 2 ^ (-z)) / 2 ^ (-z)`, rendered by `str()`. -/
def rowSegment (z : ℤ) (y : ℤ) : String :=
  if 0 ≤ z then toString ((2 : ℤ) ^ z.toNat - 1 - y)
  else floatStrDyadic (1 - (1 + y) * 2 ^ (-z).toNat) (-z).toNat

/-- Remote key including the timestamp segment:
`f"{LAYER_PATHS[layer]}/{timestamp}/{z}/{x}/{slippy_y}.png"`. -/
def tile_key_with_ts (pfx ts : String) (z x y : ℤ) : String :=
  pfx ++ "/" ++ ts ++ "/" ++ toString z ++ "/" ++ toString x ++ "/"
    ++ rowSegment z y ++ ".png"

/-- Remote key omitting the timestamp segment:
`f"{LAYER_PATHS[layer]}/{z}/{x}/{slippy_y}.png"`. -/
def tile_key_no_ts (pfx : String) (z x y : ℤ) : String :=
  pfx ++ "/" ++ toString z ++ "/" ++ toString x ++ "/"
    ++ rowSegment z y ++ ".png"

/-- The canonical remote key computed by both handlers: the timestamp
segment is omitted exactly for `layer == "LightPollution_Tiles"` with
`timestamp == "static"`. `pfx` is `LAYER_PATHS[layer]`. -/
def tile_key (layer ts : String) (z x y : ℤ) (pfx : String) : String :=
  if layer = "LightPollution_Tiles" ∧ ts = "static" then
    tile_key_no_ts pfx z x y
  else
    tile_key_with_ts pfx ts z x y

/-- Local cache path of a tile, relative to `CACHE_DIR`:
`CACHE_DIR / layer / timestamp / str(z) / str(x) / f"{slippy_y}.png"`. -/
def local_path (layer ts : String) (z x y : ℤ) : FPath :=
  [layer, ts, toString z, toString x, rowSegment z y ++ ".png"]

/-- Path rendered with `/` separators, for comparison with the spec. -/
def pathStr (p : FPath) : String := String.intercalate "/" p

/-- Outcome of `fs.get(key, path)`: the downloaded bytes, an absent
object, or a transient remote fault (both failures raise in Python
and are caught by the caller). -/
inductive FetchResult where
  | ok (b : Bytes)
  | miss
  | err
deriving DecidableEq

/-- Outcome of `fs.exists(key)`: a boolean, or a raised remote fault. -/
inductive ExistsResult where
  | ok (b : Bool)
  | err
deriving DecidableEq

/-- Observable side effects of one handler invocation, in program
order: `mkdir(parents=True, exist_ok=True)` on a directory, a remote
`fs.get` attempt, a remote `fs.exists` attempt, a completed local
file write. -/
inductive Eff where
  | mkdirParents (p : FPath)
  | fsGet (key : String)
  | fsExists (key : String)
  | cacheWrite (p : FPath)
deriving DecidableEq

/-- Responses returned by the embedded handlers. -/
inductive Resp where
  | streamBytes (b : Bytes)
  | emptyOk
  | layerNotFound
  | notFound
  | fallbackMissing
deriving DecidableEq

/-- HTTP status code of each response constructor. -/
def statusCode : Resp → Nat
  | .streamBytes _ => 200
  | .emptyOk => 200
  | .layerNotFound => 404
  | .notFound => 404
  | .fallbackMissing => 500

/-- The `serve_blank_tile(cache_path)` fallback. `fetchBlank` is the
outcome of `fs.get(s3key(blank_tile_key), blank_tile_path)` if it is
attempted; `persistOk` tells whether the best-effort
`cache_path.write_bytes(...)` block succeeds (its failure is swallowed
by `except: pass`). Returns the response, the resulting cache and the
trace of effects. -/
def serve_blank_tile (fetchBlank : FetchResult) (persistOk : Bool)
    (cache_path : FPath) (st : Cache) : Resp × Cache × List Eff :=
  let persist : Bytes → Cache → Resp × Cache × List Eff := fun bb c =>
    if persistOk then
      (.streamBytes bb, cacheSet c cache_path bb,
        [.mkdirParents (parentOf cache_path), .cacheWrite cache_path])
    else
      (.streamBytes bb, c, [])
  match cacheGet st blank_tile_path with
  | some bb => persist bb st
  | none =>
    match fetchBlank with
    | .ok bb =>
      let r := persist bb (cacheSet st blank_tile_path bb)
      (r.1, r.2.1,
        .fsGet (s3key blank_tile_key) :: .cacheWrite blank_tile_path :: r.2.2)
    | _ =>
      (.fallbackMissing, st, [.fsGet (s3key blank_tile_key)])

/-- The GET handler `get_tile_with_timestamp`. `st` is the local
cache, `remoteFetch` the outcome of `fs.get` per key, `fetchBlank`
and `persistOk` parametrise the fallback. Returns the response, the
resulting cache and the trace of effects in program order. -/
def get_tile_with_timestamp (layer ts : String) (z x y : ℤ)
    (st : Cache) (remoteFetch : String → FetchResult)
    (fetchBlank : FetchResult) (persistOk : Bool) :
    Resp × Cache × List Eff :=
  match layerPath layer with
  | none => (.layerNotFound, st, [])
  | some pfx =>
    let lp := local_path layer ts z x y
    let mk := Eff.mkdirParents (parentOf lp)
    match cacheGet st lp with
    | some b => (.streamBytes b, st, [mk])
    | none =>
      let key := tile_key layer ts z x y pfx
      match remoteFetch (s3key key) with
      | .ok b =>
        (.streamBytes b, cacheSet st lp b,
          [mk, .fsGet (s3key key), .cacheWrite lp])
      | _ =>
        let r := serve_blank_tile fetchBlank persistOk lp st
        (r.1, r.2.1, mk :: .fsGet (s3key key) :: r.2.2)

/-- The HEAD handler `head_tile_with_timestamp`. `remExists` is the
outcome of `fs.exists` per key. Returns the response and the trace of
effects; the cache is never modified. -/
def head_tile_with_timestamp (layer ts : String) (z x y : ℤ)
    (st : Cache) (remExists : String → ExistsResult) :
    Resp × List Eff :=
  match layerPath layer with
  | none => (.layerNotFound, [])
  | some pfx =>
    let lp := local_path layer ts z x y
    match cacheGet st lp with
    | some _ => (.emptyOk, [])
    | none =>
      let key := tile_key layer ts z x y pfx
      match remExists (s3key key) with
      | .ok true => (.emptyOk, [.fsExists (s3key key)])
      | .ok false => (.notFound, [.fsExists (s3key key)])
      | .err => (.notFound, [.fsExists (s3key key)])

/-- A cached tile file as seen by the cleanup loop: its path and the
`st_mtime` of its last write, in seconds. -/
structure TileFile where
  path : FPath
  st_mtime : ℚ
deriving DecidableEq

/-- One sweep of the body of `periodic_cache_cleanup`: iterate over
the cached PNG files; delete each one strictly older than
`CACHE_EXPIRY_SECONDS`; an exception while handling one file
(`failsOn` its path) is logged and the loop continues. Returns the
remaining files and the deletion count. -/
def periodic_cache_cleanup_sweep (now : ℚ) (failsOn : FPath → Bool) :
    List TileFile → List TileFile × Nat
  | [] => ([], 0)
  | t :: rest =>
    let r := periodic_cache_cleanup_sweep now failsOn rest
    if CACHE_EXPIRY_SECONDS < now - t.st_mtime then
      if failsOn t.path then (t :: r.1, r.2) else (r.1, r.2 + 1)
    else
      (t :: r.1, r.2)

/-- Cache states observable by a concurrent reader while tile bytes
are written with `cache_path.write_bytes(...)` or downloaded with
`fs.get(key, str(local_path))`: both write directly to the final
destination path (there is no temporary name and no rename), so the
destination successively holds every prefix of the data. -/
def write_bytes_observable (st : Cache) (p : FPath) (b : Bytes) :
    List Cache :=
  (List.range (b.length + 1)).map (fun n => cacheSet st p (b.take n))

/-- A write is atomic for concurrent readers when every observable
intermediate state shows either the old contents or the complete new
bytes at the destination path. -/
def atomicForReaders (st : Cache) (p : FPath) (b : Bytes) : Prop :=
  ∀ c ∈ write_bytes_observable st p b,
    cacheGet c p = cacheGet st p ∨ cacheGet c p = some b

instance (st : Cache) (p : FPath) (b : Bytes) :
    Decidable (atomicForReaders st p b) := by
  unfold atomicForReaders
  infer_instance

/-!
Helper lemmas shared by the claim theorems.
-/

/-- Reading back a freshly written path yields the written bytes. -/
lemma cacheGet_cacheSet_self (c : Cache) (p : FPath) (b : Bytes) :
    cacheGet (cacheSet c p b) p = some b := by
  simp [cacheGet, cacheSet, List.find?]

/-- Length of the key with a timestamp segment exceeds the length of
the key without it by the timestamp length plus one. -/
lemma tile_key_with_ts_length (pfx ts : String) (z x y : ℤ) :
    (tile_key_with_ts pfx ts z x y).length =
      (tile_key_no_ts pfx z x y).length + ts.length + 1 := by
  have h1 : "/".length = 1 := rfl
  have h2 : ".png".length = 4 := rfl
  simp [tile_key_with_ts, tile_key_no_ts, String.length_append, h1, h2]
  omega

/-- The key with a timestamp segment never coincides with the key
without one. -/
lemma tile_key_with_ts_ne (pfx ts : String) (z x y : ℤ) :
    tile_key_with_ts pfx ts z x y ≠ tile_key_no_ts pfx z x y := by
  intro h
  have hlen := congrArg String.length h
  rw [tile_key_with_ts_length] at hlen
  omega

/-- For nonnegative `z` the rational power `(2 : ℚ) ^ z` is the cast
of the integer power. -/
lemma two_zpow_eq_cast (z : ℤ) (hz : 0 ≤ z) :
    (2 : ℚ) ^ z = (((2 : ℤ) ^ z.toNat : ℤ) : ℚ) := by
  rw [← Int.toNat_of_nonneg hz, zpow_natCast]
  push_cast
  rfl

/-- Concrete rational fact used to instantiate hypotheses. -/
lemma five_lt_two_pow_three : ((5 : ℤ) : ℚ) < (2 : ℚ) ^ (3 : ℤ) := by
  norm_num

/-- Concrete rational fact used to instantiate hypotheses. -/
lemma two_pow_zero_le_one : (2 : ℚ) ^ (0 : ℤ) ≤ ((1 : ℤ) : ℚ) := by
  norm_num

/-- An entry thirteen hours old is past the retention threshold. -/
lemma thirteen_hours_expired :
    CACHE_EXPIRY_SECONDS < (46800 : ℚ) - 0 := by
  norm_num [CACHE_EXPIRY_SECONDS]

/-- An entry one hour old is within the retention threshold. -/
lemma one_hour_fresh :
    (46800 : ℚ) - 43200 ≤ CACHE_EXPIRY_SECONDS := by
  norm_num [CACHE_EXPIRY_SECONDS]

/-- C4: for every tile request, the canonical key omits the timestamp
segment exactly when the layer is the designated static layer
`LightPollution_Tiles` and the timestamp equals `"static"`; for every
other combination, the key is the form that includes the timestamp
segment (also when the timestamp equals `"static"` on another layer). -/
theorem C4_key_omits_timestamp_iff (layer ts : String) (z x y : ℤ)
    (pfx : String) :
    (tile_key layer ts z x y pfx = tile_key_no_ts pfx z x y ↔
      (layer = "LightPollution_Tiles" ∧ ts = "static")) ∧
    (¬(layer = "LightPollution_Tiles" ∧ ts = "static") →
      tile_key layer ts z x y pfx = tile_key_with_ts pfx ts z x y) := by
  unfold tile_key
  by_cases h : layer = "LightPollution_Tiles" ∧ ts = "static"
  · rw [if_pos h]
    exact ⟨Iff.intro (fun _ => h) (fun _ => rfl), fun hn => absurd h hn⟩
  · rw [if_neg h]
    refine ⟨Iff.intro (fun heq => ?_) (fun hc => absurd hc h), fun _ => rfl⟩
    exact absurd heq (tile_key_with_ts_ne pfx ts z x y)

/-- Witness for C4 at a concrete non-static request. -/
theorem C4_key_omits_timestamp_iff_witness :
    (¬("SkyCover_Tiles" = "LightPollution_Tiles" ∧ "2025062818" = "static")) ∧
    tile_key "SkyCover_Tiles" "2025062818" 3 2 5
        "data-layer-tiles/SkyCover_Tiles" =
      tile_key_with_ts "data-layer-tiles/SkyCover_Tiles" "2025062818" 3 2 5 :=
  ⟨by decide,
   (C4_key_omits_timestamp_iff "SkyCover_Tiles" "2025062818" 3 2 5
      "data-layer-tiles/SkyCover_Tiles").2 (by decide)⟩

/-- C5: for every zoom `z ≥ 0` and integer row in `[0, 2 ^ z)`, the
row-convention flip is an involution and its output stays in
`[0, 2 ^ z)`. -/
theorem C5_translateRow_involution (z : ℤ) (y : ℤ) (hz : 0 ≤ z)
    (h0 : 0 ≤ y) (h1 : (y : ℚ) < (2 : ℚ) ^ z) :
    slippy_y_from_tms z (slippy_y_from_tms z (y : ℚ)) = (y : ℚ) ∧
    0 ≤ slippy_y_from_tms z (y : ℚ) ∧
    slippy_y_from_tms z (y : ℚ) < (2 : ℚ) ^ z := by
  have h2 := two_zpow_eq_cast z hz
  have h1i : y < 2 ^ z.toNat := by
    rw [h2] at h1
    exact_mod_cast h1
  have h1q : (y : ℚ) ≤ (2 : ℚ) ^ z - 1 := by
    rw [h2]
    have hle : y ≤ 2 ^ z.toNat - 1 := by omega
    have hleq : ((y : ℤ) : ℚ) ≤ (((2 : ℤ) ^ z.toNat - 1 : ℤ) : ℚ) := by
      exact_mod_cast hle
    push_cast at hleq ⊢
    linarith
  have h0q : (0 : ℚ) ≤ (y : ℚ) := by exact_mod_cast h0
  unfold slippy_y_from_tms
  refine ⟨by ring, by linarith, by linarith⟩

/-- Witness for C5 at `z = 3`, `y = 5`. -/
theorem C5_translateRow_involution_witness :
    0 ≤ (3 : ℤ) ∧
    slippy_y_from_tms 3 (slippy_y_from_tms 3 ((5 : ℤ) : ℚ)) = ((5 : ℤ) : ℚ) ∧
    0 ≤ slippy_y_from_tms 3 ((5 : ℤ) : ℚ) ∧
    slippy_y_from_tms 3 ((5 : ℤ) : ℚ) < (2 : ℚ) ^ (3 : ℤ) :=
  ⟨by decide,
   C5_translateRow_involution 3 5 (by decide) (by decide) five_lt_two_pow_three⟩

/-- C8: the cache path always has the shape
`layer/timestamp/zoom/x/flippedRow.png`, with the timestamp segment
present for every layer; at the concrete request
`SkyCover_Tiles, 2025062818, z=3, x=2, y=5` the flipped row is `2`,
the canonical key is
`data-layer-tiles/SkyCover_Tiles/2025062818/3/2/2.png` and the cache
path is `SkyCover_Tiles/2025062818/3/2/2.png`. -/
theorem C8_cachePath_shape :
    (∀ (layer ts : String) (z x y : ℤ),
      local_path layer ts z x y =
        [layer, ts, toString z, toString x, rowSegment z y ++ ".png"]) ∧
    rowSegment 3 5 = "2" ∧
    layerPath "SkyCover_Tiles" = some "data-layer-tiles/SkyCover_Tiles" ∧
    tile_key "SkyCover_Tiles" "2025062818" 3 2 5
        "data-layer-tiles/SkyCover_Tiles" =
      "data-layer-tiles/SkyCover_Tiles/2025062818/3/2/2.png" ∧
    pathStr (local_path "SkyCover_Tiles" "2025062818" 3 2 5) =
      "SkyCover_Tiles/2025062818/3/2/2.png" :=
  ⟨fun _ _ _ _ _ => rfl, by decide, by decide, by decide, by decide⟩

/-- C10: the row flip is applied with no precondition check: at the
accepted input `z = -1, y = 0` the Python value `2 ** z` is the float
`0.5`, the computed row is the non-integer `-0.5` embedded verbatim
into the cache path and the canonical key, the request is still served
rather than rejected, and for any row outside `[0, 2 ^ z)` (with
`z ≥ 0`) the output also leaves that range. -/
theorem C10_negative_zoom_unvalidated :
    slippy_y_from_tms (-1) 0 = -(1 / 2) ∧
    (slippy_y_from_tms (-1) 0).den ≠ 1 ∧
    rowSegment (-1) 0 = "-0.5" ∧
    local_path "SkyCover_Tiles" "2025062818" (-1) 0 0 =
      ["SkyCover_Tiles", "2025062818", "-1", "0", "-0.5.png"] ∧
    tile_key "SkyCover_Tiles" "2025062818" (-1) 0 0
        "data-layer-tiles/SkyCover_Tiles" =
      "data-layer-tiles/SkyCover_Tiles/2025062818/-1/0/-0.5.png" ∧
    (get_tile_with_timestamp "SkyCover_Tiles" "2025062818" (-1) 0 0 []
        (fun _ => .err) (.ok [1]) true).1 = .streamBytes [1] ∧
    (∀ z y : ℤ, 0 ≤ z → ((y : ℚ) < 0 ∨ (2 : ℚ) ^ z ≤ (y : ℚ)) →
      slippy_y_from_tms z (y : ℚ) < 0 ∨
        (2 : ℚ) ^ z ≤ slippy_y_from_tms z (y : ℚ)) := by
  have hval : slippy_y_from_tms (-1) 0 = -(1 / 2) := by
    norm_num [slippy_y_from_tms]
  refine ⟨hval, ?_, by decide, by decide, by decide, by decide, ?_⟩
  · rw [hval]
    norm_num [Rat.den]
  · intro z y hz hy
    unfold slippy_y_from_tms
    rcases hy with hy | hy
    · right
      have hyz : y < 0 := by exact_mod_cast hy
      have hy1 : y ≤ -1 := by omega
      have hy1q : (y : ℚ) ≤ -1 := by exact_mod_cast hy1
      linarith
    · left
      linarith

/-- Witness for C10 at `z = 0`, `y = 1`. -/
theorem C10_negative_zoom_unvalidated_witness :
    0 ≤ (0 : ℤ) ∧
    (slippy_y_from_tms 0 ((1 : ℤ) : ℚ) < 0 ∨
      (2 : ℚ) ^ (0 : ℤ) ≤ slippy_y_from_tms 0 ((1 : ℤ) : ℚ)) :=
  ⟨by decide,
   C10_negative_zoom_unvalidated.2.2.2.2.2.2 0 1 (by decide)
     (Or.inr two_pow_zero_le_one)⟩

/-- C7: a layer absent from the registry yields the 404 layer-not-found
response from both handlers, with the cache unchanged, an empty effect
trace (no remote access, no filesystem write) and no raised fault. -/
theorem C7_unknown_layer (layer ts : String) (z x y : ℤ) (st : Cache)
    (rf : String → FetchResult) (fb : FetchResult) (pOk : Bool)
    (remEx : String → ExistsResult)
    (h : layerPath layer = none) :
    get_tile_with_timestamp layer ts z x y st rf fb pOk =
      (.layerNotFound, st, []) ∧
    head_tile_with_timestamp layer ts z x y st remEx =
      (.layerNotFound, []) ∧
    statusCode .layerNotFound = 404 := by
  unfold get_tile_with_timestamp head_tile_with_timestamp
  rw [h]
  exact ⟨rfl, rfl, rfl⟩

/-- Witness for C7 at the layer name `unknown_layer`. -/
theorem C7_unknown_layer_witness :
    layerPath "unknown_layer" = none ∧
    get_tile_with_timestamp "unknown_layer" "2025062818" 3 2 5 []
        (fun _ => .miss) .miss true = (.layerNotFound, [], []) ∧
    head_tile_with_timestamp "unknown_layer" "2025062818" 3 2 5 []
        (fun _ => .err) = (.layerNotFound, []) ∧
    statusCode .layerNotFound = 404 :=
  ⟨by decide,
   C7_unknown_layer "unknown_layer" "2025062818" 3 2 5 []
     (fun _ => .miss) .miss true (fun _ => .err) (by decide)⟩

/-- C6: for a valid layer, the HEAD handler answers 200 with no remote
call when the tile is cached locally; on a local miss it answers with
the boolean result of the remote existence check, and a raised remote
fault yields the 404 response, never a server error. -/
theorem C6_head_resolution (layer ts : String) (z x y : ℤ) (st : Cache)
    (remEx : String → ExistsResult) (pfx : String)
    (h : layerPath layer = some pfx) :
    (∀ b, cacheGet st (local_path layer ts z x y) = some b →
      head_tile_with_timestamp layer ts z x y st remEx = (.emptyOk, [])) ∧
    (∀ bv, cacheGet st (local_path layer ts z x y) = none →
      remEx (s3key (tile_key layer ts z x y pfx)) = .ok bv →
      head_tile_with_timestamp layer ts z x y st remEx =
        ((if bv then .emptyOk else .notFound),
          [.fsExists (s3key (tile_key layer ts z x y pfx))])) ∧
    (cacheGet st (local_path layer ts z x y) = none →
      remEx (s3key (tile_key layer ts z x y pfx)) = .err →
      head_tile_with_timestamp layer ts z x y st remEx =
        (.notFound, [.fsExists (s3key (tile_key layer ts z x y pfx))])) ∧
    statusCode .notFound = 404 := by
  refine ⟨?_, ?_, ?_, rfl⟩
  · intro b hb
    simp [head_tile_with_timestamp, h, hb]
  · intro bv hc hr
    cases bv <;> simp [head_tile_with_timestamp, h, hc, hr]
  · intro hc hr
    simp [head_tile_with_timestamp, h, hc, hr]

/-- Witness for C6: a locally cached tile answers 200 with no remote
call. -/
theorem C6_head_resolution_witness :
    cacheGet [(local_path "SkyCover_Tiles" "2025062818" 3 2 5, [1])]
        (local_path "SkyCover_Tiles" "2025062818" 3 2 5) = some [1] ∧
    head_tile_with_timestamp "SkyCover_Tiles" "2025062818" 3 2 5
        [(local_path "SkyCover_Tiles" "2025062818" 3 2 5, [1])]
        (fun _ => .err) = (.emptyOk, []) :=
  ⟨by decide,
   (C6_head_resolution "SkyCover_Tiles" "2025062818" 3 2 5
      [(local_path "SkyCover_Tiles" "2025062818" 3 2 5, [1])]
      (fun _ => .err) "data-layer-tiles/SkyCover_Tiles" (by decide)).1
     [1] (by decide)⟩

/-- C9: for a valid layer the GET handler emits
`mkdir(parents=True)` on the parent of the cache path as its first
effect, before the cache-existence check, in every branch (cache hit,
remote success, fallback); the HEAD handler only ever emits remote
existence checks, never a directory creation or a write. -/
theorem C9_get_mkdir_head_pure (layer ts : String) (z x y : ℤ)
    (st : Cache) (rf : String → FetchResult) (fb : FetchResult)
    (pOk : Bool) (remEx : String → ExistsResult) (pfx : String)
    (h : layerPath layer = some pfx) :
    (get_tile_with_timestamp layer ts z x y st rf fb pOk).2.2.head? =
      some (.mkdirParents (parentOf (local_path layer ts z x y))) ∧
    (∀ e ∈ (head_tile_with_timestamp layer ts z x y st remEx).2,
      ∃ k, e = .fsExists k) := by
  constructor
  · rcases hc : cacheGet st (local_path layer ts z x y) with _ | b
    · rcases hr : rf (s3key (tile_key layer ts z x y pfx)) with b | _ | _ <;>
        simp [get_tile_with_timestamp, h, hc, hr]
    · simp [get_tile_with_timestamp, h, hc]
  · rcases hc : cacheGet st (local_path layer ts z x y) with _ | b
    · rcases hr : remEx (s3key (tile_key layer ts z x y pfx)) with bv | _
      · cases bv <;> simp [head_tile_with_timestamp, h, hc, hr]
      · simp [head_tile_with_timestamp, h, hc, hr]
    · simp [head_tile_with_timestamp, h, hc]

/-- Witness for C9 on an empty cache with a failing remote. -/
theorem C9_get_mkdir_head_pure_witness :
    (get_tile_with_timestamp "SkyCover_Tiles" "2025062818" 3 2 5 []
        (fun _ => .miss) .err false).2.2.head? =
      some (.mkdirParents
        (parentOf (local_path "SkyCover_Tiles" "2025062818" 3 2 5))) ∧
    (∀ e ∈ (head_tile_with_timestamp "SkyCover_Tiles" "2025062818" 3 2 5 []
        (fun _ => .err)).2, ∃ k, e = .fsExists k) :=
  C9_get_mkdir_head_pure "SkyCover_Tiles" "2025062818" 3 2 5 []
    (fun _ => .miss) .err false (fun _ => .err)
    "data-layer-tiles/SkyCover_Tiles" (by decide)

/-- C3: one sweep of the cleanup loop keeps exactly the files that are
not strictly older than the retention threshold or whose deletion
raised (and was skipped): every file strictly older than
`CACHE_EXPIRY_SECONDS` whose deletion succeeds is removed, every file
at or below the threshold is untouched, and a failing deletion is
skipped without affecting the rest of the sweep. -/
theorem C3_janitor_sweep (now : ℚ) (failsOn : FPath → Bool)
    (entries : List TileFile) :
    (periodic_cache_cleanup_sweep now failsOn entries).1 =
      entries.filter
        (fun t => !(decide (CACHE_EXPIRY_SECONDS < now - t.st_mtime) &&
          !failsOn t.path)) ∧
    (∀ t ∈ entries, CACHE_EXPIRY_SECONDS < now - t.st_mtime →
      failsOn t.path = false →
      t ∉ (periodic_cache_cleanup_sweep now failsOn entries).1) ∧
    (∀ t ∈ entries, now - t.st_mtime ≤ CACHE_EXPIRY_SECONDS →
      t ∈ (periodic_cache_cleanup_sweep now failsOn entries).1) ∧
    (∀ t ∈ entries, failsOn t.path = true →
      t ∈ (periodic_cache_cleanup_sweep now failsOn entries).1) := by
  have hfilter : (periodic_cache_cleanup_sweep now failsOn entries).1 =
      entries.filter
        (fun t => !(decide (CACHE_EXPIRY_SECONDS < now - t.st_mtime) &&
          !failsOn t.path)) := by
    induction entries with
    | nil => rfl
    | cons t rest ih =>
      by_cases h1 : CACHE_EXPIRY_SECONDS < now - t.st_mtime
      · by_cases h2 : failsOn t.path
        · simp [periodic_cache_cleanup_sweep, List.filter, h1, h2, ih]
        · simp [periodic_cache_cleanup_sweep, List.filter, h1, h2, ih]
      · simp [periodic_cache_cleanup_sweep, List.filter, h1, ih]
  refine ⟨hfilter, ?_, ?_, ?_⟩
  · intro t ht hage hfail
    rw [hfilter]
    simp [List.mem_filter, hage, hfail]
  · intro t ht hage
    rw [hfilter, List.mem_filter]
    exact ⟨ht, by simp [not_lt.mpr hage]⟩
  · intro t ht hfail
    rw [hfilter, List.mem_filter]
    exact ⟨ht, by simp [hfail]⟩

/-- Witness for C3: with the threshold of 12 hours, a file written 13
hours ago is deleted and a file written 1 hour ago is kept. -/
theorem C3_janitor_sweep_witness :
    (⟨["old.png"], 0⟩ : TileFile) ∉
      (periodic_cache_cleanup_sweep 46800 (fun _ => false)
        [⟨["old.png"], 0⟩, ⟨["fresh.png"], 43200⟩]).1 ∧
    (⟨["fresh.png"], 43200⟩ : TileFile) ∈
      (periodic_cache_cleanup_sweep 46800 (fun _ => false)
        [⟨["old.png"], 0⟩, ⟨["fresh.png"], 43200⟩]).1 :=
  ⟨(C3_janitor_sweep 46800 (fun _ => false)
      [⟨["old.png"], 0⟩, ⟨["fresh.png"], 43200⟩]).2.1 ⟨["old.png"], 0⟩
      (List.mem_cons_self _ _) thirteen_hours_expired rfl,
   (C3_janitor_sweep 46800 (fun _ => false)
      [⟨["old.png"], 0⟩, ⟨["fresh.png"], 43200⟩]).2.2.1 ⟨["fresh.png"], 43200⟩
      (List.mem_cons_of_mem _ (List.mem_cons_self _ _)) one_hour_fresh⟩

/-- Behaviour of the fallback when the placeholder is obtainable
(already cached locally, or fetched on first use): the response always
streams the placeholder bytes, and when the best-effort persist
succeeds, the placeholder bytes are stored at the requested cache
path. -/
lemma serve_blank_tile_spec (fetchBlank : FetchResult) (persistOk : Bool)
    (p : FPath) (st : Cache) (bb : Bytes)
    (hb : cacheGet st blank_tile_path = some bb ∨
      (cacheGet st blank_tile_path = none ∧ fetchBlank = .ok bb)) :
    (serve_blank_tile fetchBlank persistOk p st).1 = .streamBytes bb ∧
    (persistOk = true →
      cacheGet (serve_blank_tile fetchBlank persistOk p st).2.1 p =
        some bb) := by
  rcases hb with hbb | hbp
  · cases persistOk <;>
      simp [serve_blank_tile, hbb, cacheGet_cacheSet_self]
  · obtain ⟨hn, hfb⟩ := hbp
    cases persistOk <;>
      simp [serve_blank_tile, hn, hfb, cacheGet_cacheSet_self]

/-- C1: for a valid layer, a tile absent from the local cache whose
remote fetch fails (object absent or remote error) is answered with
the placeholder bytes, for any outcome of the best-effort persist;
when the persist succeeds, the placeholder bytes sit at the cache
path, and a second identical request is served from the local cache
with no remote call (its only effect is the directory creation). -/
theorem C1_remote_failure_placeholder (layer ts : String) (z x y : ℤ)
    (st : Cache) (remoteFetch : String → FetchResult)
    (fetchBlank : FetchResult) (persistOk : Bool) (pfx : String)
    (bb : Bytes)
    (hl : layerPath layer = some pfx)
    (hc : cacheGet st (local_path layer ts z x y) = none)
    (hf : remoteFetch (s3key (tile_key layer ts z x y pfx)) = .miss ∨
      remoteFetch (s3key (tile_key layer ts z x y pfx)) = .err)
    (hb : cacheGet st blank_tile_path = some bb ∨
      (cacheGet st blank_tile_path = none ∧ fetchBlank = .ok bb)) :
    (get_tile_with_timestamp layer ts z x y st remoteFetch fetchBlank
        persistOk).1 = .streamBytes bb ∧
    (persistOk = true →
      cacheGet (get_tile_with_timestamp layer ts z x y st remoteFetch
          fetchBlank persistOk).2.1 (local_path layer ts z x y) =
        some bb ∧
      get_tile_with_timestamp layer ts z x y
          (get_tile_with_timestamp layer ts z x y st remoteFetch
            fetchBlank persistOk).2.1 remoteFetch fetchBlank persistOk =
        (.streamBytes bb,
          (get_tile_with_timestamp layer ts z x y st remoteFetch
            fetchBlank persistOk).2.1,
          [.mkdirParents (parentOf (local_path layer ts z x y))])) := by
  have hsb := serve_blank_tile_spec fetchBlank persistOk
    (local_path layer ts z x y) st bb hb
  have hcall : get_tile_with_timestamp layer ts z x y st remoteFetch
      fetchBlank persistOk =
      ((serve_blank_tile fetchBlank persistOk
          (local_path layer ts z x y) st).1,
        (serve_blank_tile fetchBlank persistOk
          (local_path layer ts z x y) st).2.1,
        .mkdirParents (parentOf (local_path layer ts z x y)) ::
          .fsGet (s3key (tile_key layer ts z x y pfx)) ::
          (serve_blank_tile fetchBlank persistOk
            (local_path layer ts z x y) st).2.2) := by
    rcases hf with hf | hf <;>
      simp [get_tile_with_timestamp, hl, hc, hf]
  refine ⟨?_, ?_⟩
  · rw [hcall]
    exact hsb.1
  · intro hp
    have h2 := hsb.2 hp
    refine ⟨?_, ?_⟩
    · rw [hcall]
      exact h2
    · rw [hcall]
      simp [get_tile_with_timestamp, hl, h2]

/-- Witness for C1: a remote miss on an empty cache with the
placeholder fetched on first use and a succeeding persist. -/
theorem C1_remote_failure_placeholder_witness :
    (get_tile_with_timestamp "SkyCover_Tiles" "2025062818" 3 2 5 []
        (fun _ => .miss) (.ok [9]) true).1 = .streamBytes [9] ∧
    cacheGet (get_tile_with_timestamp "SkyCover_Tiles" "2025062818" 3 2 5
        [] (fun _ => .miss) (.ok [9]) true).2.1
      (local_path "SkyCover_Tiles" "2025062818" 3 2 5) = some [9] ∧
    get_tile_with_timestamp "SkyCover_Tiles" "2025062818" 3 2 5
        (get_tile_with_timestamp "SkyCover_Tiles" "2025062818" 3 2 5 []
          (fun _ => .miss) (.ok [9]) true).2.1
        (fun _ => .miss) (.ok [9]) true =
      (.streamBytes [9],
        (get_tile_with_timestamp "SkyCover_Tiles" "2025062818" 3 2 5 []
          (fun _ => .miss) (.ok [9]) true).2.1,
        [.mkdirParents
          (parentOf (local_path "SkyCover_Tiles" "2025062818" 3 2 5))]) :=
  ⟨(C1_remote_failure_placeholder "SkyCover_Tiles" "2025062818" 3 2 5 []
      (fun _ => .miss) (.ok [9]) true "data-layer-tiles/SkyCover_Tiles" [9]
      (by decide) (by decide) (Or.inl rfl) (Or.inr ⟨rfl, rfl⟩)).1,
   (C1_remote_failure_placeholder "SkyCover_Tiles" "2025062818" 3 2 5 []
      (fun _ => .miss) (.ok [9]) true "data-layer-tiles/SkyCover_Tiles" [9]
      (by decide) (by decide) (Or.inl rfl) (Or.inr ⟨rfl, rfl⟩)).2 rfl⟩

/-- C2 counterexample: the cache write used by the handlers is a
direct write to the destination path, so at the concrete write of the
bytes `[7, 8]` to a tile path over an empty cache, a concurrent
reader can observe a state that holds neither the old contents nor
the complete bytes. -/
theorem C2_write_not_atomic_counterexample :
    ¬ atomicForReaders [] ["SkyCover_Tiles", "t", "3", "2", "2.png"]
        [7, 8] := by
  decide

/-- C2 amended: every cache write goes directly to the final cache
path with no temporary name and no rename; the completed write is
among the reader-observable states, but for any write of at least two
bytes a concurrent reader can also observe a proper nonempty prefix
of the data at the destination, so the write is not atomic for
concurrent readers. -/
theorem C2_direct_write_partial_states (st : Cache) (p : FPath)
    (b : Bytes) (h : 2 ≤ b.length) :
    cacheSet st p b ∈ write_bytes_observable st p b ∧
    ∃ c ∈ write_bytes_observable st p b, ∃ n, 0 < n ∧ n < b.length ∧
      cacheGet c p = some (b.take n) ∧ b.take n ≠ b := by
  constructor
  · unfold write_bytes_observable
    refine List.mem_map.mpr ⟨b.length, List.mem_range.mpr (by omega), ?_⟩
    rw [List.take_length]
  · refine ⟨cacheSet st p (b.take 1), ?_, 1, one_pos, by omega,
      cacheGet_cacheSet_self _ _ _, ?_⟩
    · unfold write_bytes_observable
      exact List.mem_map.mpr ⟨1, List.mem_range.mpr (by omega), rfl⟩
    · intro heq
      have hlen := congrArg List.length heq
      rw [List.length_take] at hlen
      omega

/-- Witness for C2 at the write of `[7, 8]` over an empty cache. -/
theorem C2_direct_write_partial_states_witness :
    2 ≤ ([7, 8] : Bytes).length ∧
    (cacheSet [] ["SkyCover_Tiles", "t", "3", "2", "2.png"] [7, 8] ∈
      write_bytes_observable [] ["SkyCover_Tiles", "t", "3", "2", "2.png"]
        [7, 8] ∧
    ∃ c ∈ write_bytes_observable []
        ["SkyCover_Tiles", "t", "3", "2", "2.png"] [7, 8],
      ∃ n, 0 < n ∧ n < ([7, 8] : Bytes).length ∧
        cacheGet c ["SkyCover_Tiles", "t", "3", "2", "2.png"] =
          some (([7, 8] : Bytes).take n) ∧
        ([7, 8] : Bytes).take n ≠ [7, 8]) :=
  ⟨by decide,
   C2_direct_write_partial_states []
     ["SkyCover_Tiles", "t", "3", "2", "2.png"] [7, 8] (by decide)⟩

end TileServer
